import Mathlib

/-!
Verification of the `fmrisim_multivariate_example.ipynb` notebook
(repository `mamaj/brainiak`, single source file).

The notebook is straight-line glue code: it loads a real scan, estimates
noise with the external `fmrisim` library, synthesizes a signal, adds
noise, and runs a t-test and an SVM on the result.  Two kinds of shallow
embedding are used below.

1.  A statement-level embedding: the notebook's code cells are transcribed,
    statement by statement and in source order, into a list of `Stmt`
    records (variable reads/writes, the external library function called,
    files written, the section of the notebook the statement belongs to).
    Claims about the shape of the pipeline (ordering of stages, delegation
    to libraries, absence of exception handlers, files produced) are
    decidable properties of this list.

2.  A value-level embedding of the few computations the notebook performs
    itself: the `tr = dimsize[3]` header access and its ms-to-s
    normalization, the event-count / onset-splitting arithmetic of
    cell 2.4, and the per-voxel effect-size loop of cell 2.2.  Python
    floats are modelled as exact rationals, `int()` truncation as `pyInt`,
    out-of-bounds indexing as `Option`/`Except` failure.
-/

set_option maxRecDepth 4000
set_option maxHeartbeats 1000000

/-- Variables assigned in the notebook (one constructor per Python name). -/
inductive V
  | home | nii | volume | dim | dimsize | tr
  | mask | template | noise_dict
  | coordinates | feature_size | signal_volume
  | effect_size | temporal_sd | signal_idxs | signal_change
  | voxels | pattern_A | pattern_B
  | event_duration | isi | burn_in | total_time | events
  | onsets_all | onsets_A | onsets_B | temporal_res
  | stimfunc_A | stimfunc_B
  | weights_A | weights_B | weights_all
  | signal_func | response | signal
  | noise | low_spatial | high_spatial | timepoints
  | drift | autoreg | phys | task | system
  | brain
  | hrf_lag | lb | ub | trials_A | trials_B
  | distance_matrix | mds | coords
  | mean_difference | ttest
  | input_mat | input_labels
  | X_train | X_test | y_train | y_test
  | clf | score
deriving DecidableEq

/-- Files touched by the notebook.  The three export targets are created;
`inputScan` is the scan read at the top and is listed so that we can state
that it is never written. -/
inductive FileOut
  | epochFile | condA | condB | inputScan
deriving DecidableEq

/-- Syntactic kind of a notebook statement.

* `modImport`: the import cell (and the matplotlib magic).
* `paramAssign`: assignment of a scalar parameter, or scalar arithmetic /
  slicing deriving one parameter from others.
* `libCall`: a call of a named external-library function, binding its result.
* `plotCall`: a matplotlib plotting/figure statement.
* `printCall`: a `print` statement.
* `ownCompute`: numerical computation written out in notebook-owned Python
  (loops, element-wise operator arithmetic on arrays, fancy indexing, list
  construction); when such a statement's expression invokes a named library
  helper (e.g. `np.random.randn(...).reshape(...)`), that helper is recorded
  in the `callee` field.
* `funcDef`: a Python `def`/`class` statement.  The notebook contains none;
  the constructor exists so that their absence is statable. -/
inductive Kind
  | modImport | paramAssign | libCall | plotCall | printCall | ownCompute | funcDef
deriving DecidableEq

/-- Named external-library functions called by the notebook. -/
inductive Callee
  | pathlib_home | nibabel_load | nii_get_data | header_get_zooms
  | fmrisim_mask_brain | fmrisim_calc_noise
  | fmrisim_generate_signal | fmrisim_generate_stimfunction
  | fmrisim_export_epoch_file | fmrisim_export_3_column
  | fmrisim_convolve_hrf | fmrisim_apply_signal
  | fmrisim_generate_noise
  | fmrisim_generate_noise_spatial
  | fmrisim_generate_noise_temporal_drift
  | fmrisim_generate_noise_temporal_autoregression
  | fmrisim_generate_noise_temporal_phys
  | fmrisim_generate_noise_temporal_task
  | fmrisim_generate_noise_system
  | np_array | np_where | np_zeros | np_linspace | np_random_shuffle
  | np_transpose_m | np_reshape_m | np_vstack
  | np_random_randn_reshape | np_matlib_repmat_transpose
  | np_mean | np_astype | np_ndarray_sum
  | scipy_pdist_squareform | scipy_ttest_1samp
  | sklearn_MDS | sklearn_MDS_fit
  | sklearn_train_test_split | sklearn_SVC_fit | sklearn_SVC_score
deriving DecidableEq

/-- One executable statement of the notebook.

`stage` is the notebook section the statement belongs to: 0 = parameter
setting and data loading (section 1.1-1.2), 1 = noise estimation from the
real scan (sections 1.3-1.4), 2 = signal generation and noise generation
(sections 2 and 3, through `brain = signal + noise`), 3 = analysis
(section 4).  `args` records keyword/positional arguments as literal
strings where a claim refers to them (the sklearn calls, `mask_self`,
`scale_function`); it is left `[]` elsewhere.  `catches` is whether the
statement is guarded by a `try/except` handler (never, in this notebook). -/
structure Stmt where
  name : String
  stage : Nat
  kind : Kind
  callee : Option Callee
  reads : List V
  writes : List V
  files : List FileOut
  args : List (String × String)
  catches : Bool
deriving DecidableEq

/-- Notebook section 1 (parameter setting, loading, noise estimation):
code cells 4-13, statement by statement, in source order. -/
def notebookPart1 : List Stmt := [
  -- cell 4: %matplotlib notebook + imports
  ⟨"matplotlib_magic", 0, .plotCall, none, [], [], [], [], false⟩,
  ⟨"module_imports", 0, .modImport, none, [], [], [], [], false⟩,
  -- cell 6: home = str(Path.home()); nii = nibabel.load(...); volume = nii.get_data()
  ⟨"home_assign", 0, .libCall, some .pathlib_home, [], [.home], [], [], false⟩,
  ⟨"nii_load", 0, .libCall, some .nibabel_load, [.home], [.nii], [], [], false⟩,
  ⟨"volume_assign", 0, .libCall, some .nii_get_data, [.nii], [.volume], [], [], false⟩,
  -- cell 8: dim = volume.shape; dimsize = nii.header.get_zooms(); tr = dimsize[3]; if tr > 100: tr /= 1000; print(dim)
  ⟨"dim_assign", 0, .paramAssign, none, [.volume], [.dim], [], [], false⟩,
  ⟨"dimsize_assign", 0, .libCall, some .header_get_zooms, [.nii], [.dimsize], [], [], false⟩,
  ⟨"tr_assign", 0, .paramAssign, none, [.dimsize], [.tr], [], [], false⟩,
  ⟨"tr_normalize", 0, .paramAssign, none, [.tr], [.tr], [], [], false⟩,
  ⟨"print_dim", 0, .printCall, none, [.dim], [], [], [], false⟩,
  -- cell 10: mask, template = fmrisim.mask_brain(volume=volume, mask_self=True)
  ⟨"mask_template_assign", 1, .libCall, some .fmrisim_mask_brain, [.volume],
    [.mask, .template], [], [("mask_self", "True")], false⟩,
  -- cell 12: noise_dict = {'voxel_size': [...]}; noise_dict = fmrisim.calc_noise(...)
  ⟨"noise_dict_init", 1, .paramAssign, none, [.dimsize], [.noise_dict], [], [], false⟩,
  ⟨"noise_dict_calc", 1, .libCall, some .fmrisim_calc_noise,
    [.volume, .mask, .noise_dict], [.noise_dict], [], [], false⟩,
  -- cell 13: four print statements reporting SNR / SFNR / FWHM
  ⟨"print_noise_params", 1, .printCall, none, [.noise_dict], [], [], [], false⟩]

/-- Notebook section 2 through cell 26 (signal specification, timing,
exports): code cells 16-26. -/
def notebookPart2 : List Stmt := [
  -- cell 16: coordinates / feature_size / signal_volume = fmrisim.generate_signal(...)
  ⟨"coordinates_assign", 2, .libCall, some .np_array, [], [.coordinates], [], [], false⟩,
  ⟨"feature_size_assign", 2, .paramAssign, none, [], [.feature_size], [], [], false⟩,
  ⟨"signal_volume_assign", 2, .libCall, some .fmrisim_generate_signal,
    [.dim, .coordinates, .feature_size], [.signal_volume], [], [], false⟩,
  -- cell 17: plot of the signal volume over the mask
  ⟨"plot_signal_volume", 2, .plotCall, none, [.signal_volume, .mask], [], [], [], false⟩,
  -- cell 19: effect_size; temporal_sd = template * noise_dict['max_activity'] / noise_dict['sfnr'];
  --          signal_idxs = np.where(signal_volume == 1); signal_change = np.zeros(...); for loop
  ⟨"effect_size_assign", 2, .paramAssign, none, [], [.effect_size], [], [], false⟩,
  ⟨"temporal_sd_assign", 2, .ownCompute, none, [.template, .noise_dict], [.temporal_sd], [], [], false⟩,
  ⟨"signal_idxs_assign", 2, .libCall, some .np_where, [.signal_volume], [.signal_idxs], [], [], false⟩,
  ⟨"signal_change_zeros", 2, .libCall, some .np_zeros, [.signal_volume], [.signal_change], [], [], false⟩,
  ⟨"signal_change_loop", 2, .ownCompute, some .np_ndarray_sum,
    [.signal_volume, .signal_idxs, .effect_size, .temporal_sd, .signal_change],
    [.signal_change], [], [], false⟩,
  -- cell 21: voxels = feature_size ** 3; pattern_A/B = np.random.randn(voxels).reshape(...) * signal_change
  ⟨"voxels_assign", 2, .paramAssign, none, [.feature_size], [.voxels], [], [], false⟩,
  ⟨"pattern_A_assign", 2, .ownCompute, some .np_random_randn_reshape,
    [.voxels, .signal_change], [.pattern_A], [], [], false⟩,
  ⟨"pattern_B_assign", 2, .ownCompute, some .np_random_randn_reshape,
    [.voxels, .signal_change], [.pattern_B], [], [], false⟩,
  -- cell 22: plot of the two patterns
  ⟨"plot_patterns", 2, .plotCall, none, [.pattern_A, .pattern_B], [], [], [], false⟩,
  -- cell 24: timing parameters, onsets, stimulus functions
  ⟨"event_duration_assign", 2, .paramAssign, none, [], [.event_duration], [], [], false⟩,
  ⟨"isi_assign", 2, .paramAssign, none, [], [.isi], [], [], false⟩,
  ⟨"burn_in_assign", 2, .paramAssign, none, [], [.burn_in], [], [], false⟩,
  ⟨"total_time_assign", 2, .paramAssign, none, [.dim, .tr, .burn_in], [.total_time], [], [], false⟩,
  ⟨"events_assign", 2, .paramAssign, none,
    [.total_time, .event_duration, .isi], [.events], [], [], false⟩,
  ⟨"onsets_all_assign", 2, .libCall, some .np_linspace,
    [.burn_in, .events, .event_duration, .isi], [.onsets_all], [], [], false⟩,
  ⟨"shuffle_onsets", 2, .libCall, some .np_random_shuffle, [.onsets_all], [.onsets_all], [], [], false⟩,
  ⟨"onsets_A_assign", 2, .paramAssign, none, [.onsets_all, .events], [.onsets_A], [], [], false⟩,
  ⟨"onsets_B_assign", 2, .paramAssign, none, [.onsets_all, .events], [.onsets_B], [], [], false⟩,
  ⟨"temporal_res_assign", 2, .paramAssign, none, [], [.temporal_res], [], [], false⟩,
  ⟨"stimfunc_A_assign", 2, .libCall, some .fmrisim_generate_stimfunction,
    [.onsets_A, .event_duration, .total_time, .temporal_res], [.stimfunc_A], [], [], false⟩,
  ⟨"stimfunc_B_assign", 2, .libCall, some .fmrisim_generate_stimfunction,
    [.onsets_B, .event_duration, .total_time, .temporal_res], [.stimfunc_B], [], [], false⟩,
  -- cell 26: the three export calls (the only file writes in the notebook)
  ⟨"export_epoch", 2, .libCall, some .fmrisim_export_epoch_file,
    [.stimfunc_A, .stimfunc_B, .home, .tr, .temporal_res], [], [.epochFile], [], false⟩,
  ⟨"export_cond_A", 2, .libCall, some .fmrisim_export_3_column,
    [.stimfunc_A, .home, .temporal_res], [], [.condA], [], false⟩,
  ⟨"export_cond_B", 2, .libCall, some .fmrisim_export_3_column,
    [.stimfunc_B, .home, .temporal_res], [], [.condB], [], false⟩]

/-- Notebook cells 28-44 (voxel weights, convolution, noise generation,
`brain = signal + noise`). -/
def notebookPart3 : List Stmt := [
  -- cell 28: weights_A/B = np.matlib.repmat(...).transpose() * pattern; sum; transpose
  ⟨"weights_A_assign", 2, .ownCompute, some .np_matlib_repmat_transpose,
    [.stimfunc_A, .voxels, .pattern_A], [.weights_A], [], [], false⟩,
  ⟨"weights_B_assign", 2, .ownCompute, some .np_matlib_repmat_transpose,
    [.stimfunc_B, .voxels, .pattern_B], [.weights_B], [], [], false⟩,
  ⟨"weights_sum", 2, .ownCompute, none, [.weights_A, .weights_B], [.weights_all], [], [], false⟩,
  ⟨"weights_transpose", 2, .libCall, some .np_transpose_m, [.weights_all], [.weights_all], [], [], false⟩,
  -- cell 30: signal_func = fmrisim.convolve_hrf(...)
  ⟨"signal_func_assign", 2, .libCall, some .fmrisim_convolve_hrf,
    [.weights_all, .tr, .temporal_res], [.signal_func], [], [("scale_function", "0")], false⟩,
  -- cell 31: plot of events and z-scored response
  ⟨"plot_response", 2, .plotCall, none, [.signal_func, .stimfunc_A, .stimfunc_B], [.response], [], [], false⟩,
  -- cell 33: signal = fmrisim.apply_signal(signal_func, signal_volume)
  ⟨"signal_assign", 2, .libCall, some .fmrisim_apply_signal,
    [.signal_func, .signal_volume], [.signal], [], [], false⟩,
  -- cell 35: noise = fmrisim.generate_noise(...)
  ⟨"noise_assign", 2, .libCall, some .fmrisim_generate_noise,
    [.dim, .tr, .weights_all, .mask, .template, .noise_dict], [.noise], [], [], false⟩,
  -- cell 36: plot of one noise slice
  ⟨"plot_noise", 2, .plotCall, none, [.noise], [], [], [], false⟩,
  -- cell 38: demonstration calls of the spatial-noise helper, plot only
  ⟨"low_spatial_assign", 2, .libCall, some .fmrisim_generate_noise_spatial, [.dim], [.low_spatial], [], [], false⟩,
  ⟨"high_spatial_assign", 2, .libCall, some .fmrisim_generate_noise_spatial, [.dim], [.high_spatial], [], [], false⟩,
  ⟨"plot_spatial_noise", 2, .plotCall, none, [.low_spatial, .high_spatial], [], [], [], false⟩,
  -- cell 39: demonstration calls of the temporal-noise helpers, plot only
  ⟨"timepoints_assign", 2, .paramAssign, none, [.total_time, .tr], [.timepoints], [], [], false⟩,
  ⟨"drift_assign", 2, .libCall, some .fmrisim_generate_noise_temporal_drift,
    [.total_time, .tr], [.drift], [], [], false⟩,
  ⟨"autoreg_assign", 2, .libCall, some .fmrisim_generate_noise_temporal_autoregression,
    [.timepoints], [.autoreg], [], [], false⟩,
  ⟨"phys_assign", 2, .libCall, some .fmrisim_generate_noise_temporal_phys,
    [.timepoints], [.phys], [], [], false⟩,
  ⟨"task_assign", 2, .libCall, some .fmrisim_generate_noise_temporal_task,
    [.stimfunc_A, .tr], [.task], [], [], false⟩,
  ⟨"plot_noise_types", 2, .plotCall, none, [.drift, .autoreg, .phys, .task], [], [], [], false⟩,
  -- cell 41: demonstration call of the system-noise helper, plot only
  ⟨"system_assign", 2, .libCall, some .fmrisim_generate_noise_system, [.dim], [.system], [], [], false⟩,
  ⟨"plot_system", 2, .plotCall, none, [.system], [], [], [], false⟩,
  -- cell 44: brain = signal + noise
  ⟨"brain_assign", 2, .ownCompute, none, [.signal, .noise], [.brain], [], [], false⟩]

/-- Notebook section 4 (analysis): code cells 47-54. -/
def notebookPart4 : List Stmt := [
  -- cell 47: ROI bounds and per-trial extraction
  ⟨"hrf_lag_assign", 3, .paramAssign, none, [], [.hrf_lag], [], [], false⟩,
  ⟨"lb_assign", 3, .ownCompute, some .np_astype, [.coordinates, .feature_size], [.lb], [], [], false⟩,
  ⟨"ub_assign", 3, .ownCompute, some .np_astype, [.coordinates, .feature_size], [.ub], [], [], false⟩,
  ⟨"trials_A_index", 3, .ownCompute, some .np_astype,
    [.brain, .lb, .ub, .onsets_A, .hrf_lag, .tr], [.trials_A], [], [], false⟩,
  ⟨"trials_B_index", 3, .ownCompute, some .np_astype,
    [.brain, .lb, .ub, .onsets_B, .hrf_lag, .tr], [.trials_B], [], [], false⟩,
  ⟨"trials_A_reshape", 3, .libCall, some .np_reshape_m, [.trials_A, .voxels], [.trials_A], [], [], false⟩,
  ⟨"trials_B_reshape", 3, .libCall, some .np_reshape_m, [.trials_B, .voxels], [.trials_B], [], [], false⟩,
  -- cell 48: plot of trial matrices
  ⟨"plot_trials", 3, .plotCall, none, [.trials_A, .trials_B], [], [], [], false⟩,
  -- cell 50: distance matrix, MDS, scatter plot
  ⟨"distance_matrix_assign", 3, .libCall, some .scipy_pdist_squareform,
    [.trials_A, .trials_B], [.distance_matrix], [], [], false⟩,
  ⟨"mds_assign", 3, .libCall, some .sklearn_MDS, [], [.mds], [],
    [("n_components", "2"), ("dissimilarity", "precomputed")], false⟩,
  ⟨"coords_assign", 3, .libCall, some .sklearn_MDS_fit, [.mds, .distance_matrix], [.coords], [], [], false⟩,
  ⟨"plot_mds", 3, .plotCall, none, [.coords, .trials_A, .trials_B], [], [], [], false⟩,
  -- cell 52: mean_difference = np.mean(trials_A,0) - np.mean(trials_B,0); t-test; prints
  ⟨"mean_difference_assign", 3, .ownCompute, some .np_mean,
    [.trials_A, .trials_B], [.mean_difference], [], [], false⟩,
  ⟨"ttest_assign", 3, .libCall, some .scipy_ttest_1samp, [.mean_difference], [.ttest], [], [], false⟩,
  ⟨"print_ttest", 3, .printCall, none, [.mean_difference, .ttest], [], [], [], false⟩,
  -- cell 54: stacked input matrix, labels, split, SVC fit, score, print
  ⟨"input_mat_assign", 3, .libCall, some .np_vstack, [.trials_A, .trials_B], [.input_mat], [], [], false⟩,
  ⟨"input_labels_assign", 3, .ownCompute, none, [.trials_A, .trials_B], [.input_labels], [], [], false⟩,
  ⟨"train_test_split_call", 3, .libCall, some .sklearn_train_test_split,
    [.input_mat, .input_labels], [.X_train, .X_test, .y_train, .y_test], [],
    [("test_size", "0.2"), ("random_state", "0")], false⟩,
  ⟨"clf_fit", 3, .libCall, some .sklearn_SVC_fit, [.X_train, .y_train], [.clf], [],
    [("kernel", "linear"), ("C", "1")], false⟩,
  ⟨"score_assign", 3, .libCall, some .sklearn_SVC_score, [.clf, .X_test, .y_test], [.score], [], [], false⟩,
  ⟨"print_score", 3, .printCall, none, [.score], [], [], [], false⟩]

/-- The notebook's code cells, statement by statement, in source order. -/
def notebook : List Stmt :=
  notebookPart1 ++ notebookPart2 ++ notebookPart3 ++ notebookPart4

/-! Decidable properties of the statement list. -/

/-- Auxiliary scan: every variable a statement reads was written by an
earlier statement (`acc` accumulates the variables written so far). -/
def scopeGo (acc : List V) : List Stmt → Bool
  | [] => true
  | s :: rest => (s.reads.all fun v => acc.contains v) && scopeGo (acc ++ s.writes) rest

/-- Dataflow well-scopedness of the whole list. -/
def wellScopedB (l : List Stmt) : Bool := scopeGo [] l

/-- Stage labels never decrease along the statement list. -/
def stagesOK : List Stmt → Bool
  | [] => true
  | [_] => true
  | a :: b :: rest => decide (a.stage ≤ b.stage) && stagesOK (b :: rest)

/-- Number of statements calling a given library function. -/
def countCallee (c : Callee) (l : List Stmt) : Nat :=
  (l.filter fun s => s.callee == some c).length

/-- Index of the first statement calling a given library function. -/
def idxOfCallee (c : Callee) (l : List Stmt) : Nat :=
  l.findIdx fun s => s.callee == some c

/-- Index of the first statement with a given name. -/
def idxOfName (n : String) (l : List Stmt) : Nat :=
  l.findIdx fun s => s.name == n

/-- Number of Python function/class definitions. -/
def funcDefCount (l : List Stmt) : Nat :=
  (l.filter fun s => s.kind == Kind.funcDef).length

/-- All variables written by the statements, in order. -/
def writesOf (l : List Stmt) : List V :=
  l.foldr (fun s acc => s.writes ++ acc) []

/-- All files written by the statements, in order. -/
def filesOf (l : List Stmt) : List FileOut :=
  l.foldr (fun s acc => s.files ++ acc) []

/-- Result of running the script: variables bound, files written, and the
name of the statement whose exception aborted the run (if any). -/
structure RunOut where
  written : List V
  filesOut : List FileOut
  aborted : Option String
deriving DecidableEq

/-- Sequential execution of the statement list.  `f s = true` means
statement `s` raises an exception.  An uncaught exception aborts the run:
nothing after the raising statement executes.  A caught exception skips the
statement's own bindings and continues. -/
def runScript (f : Stmt → Bool) : List Stmt → RunOut
  | [] => ⟨[], [], none⟩
  | s :: rest =>
    if f s then
      if s.catches then
        let r := runScript f rest
        ⟨r.written, r.filesOut, r.aborted⟩
      else ⟨[], [], some s.name⟩
    else
      let r := runScript f rest
      ⟨s.writes ++ r.written, s.files ++ r.filesOut, r.aborted⟩

/-- The six core computational steps are delegated to these calls. -/
def coreCallees : List (Option Callee) :=
  [some .fmrisim_mask_brain, some .fmrisim_calc_noise, some .fmrisim_generate_noise,
   some .fmrisim_convolve_hrf, some .fmrisim_apply_signal, some .sklearn_SVC_fit]

/-- The variables produced by the six core steps. -/
def coreOutputs : List V :=
  [.mask, .template, .noise_dict, .noise, .signal_func, .signal, .clf]

/-- Statement kinds the spec allows a glue-only notebook: narration
(imports, prints), parameter setup, plotting, and external-library calls. -/
def allowedByC3 (s : Stmt) : Bool :=
  s.kind == Kind.modImport || s.kind == Kind.paramAssign || s.kind == Kind.libCall
    || s.kind == Kind.plotCall || s.kind == Kind.printCall

/-- The notebook-owned numerical glue statements: their computation is
expressed by Python/numpy operators, loops, fancy indexing or list
construction owned by the notebook, even where their expressions invoke
numpy helpers such as `randn`/`reshape`, `repmat`/`transpose`, `np.mean`,
`.astype` or `.sum`. -/
def glueStmtNames : List String :=
  ["temporal_sd_assign", "signal_change_loop", "pattern_A_assign", "pattern_B_assign",
   "weights_A_assign", "weights_B_assign", "weights_sum", "brain_assign",
   "lb_assign", "ub_assign", "trials_A_index", "trials_B_index",
   "mean_difference_assign", "input_labels_assign"]

@[simp] lemma writesOf_nil : writesOf [] = [] := rfl

@[simp] lemma writesOf_cons (s : Stmt) (l : List Stmt) :
    writesOf (s :: l) = s.writes ++ writesOf l := rfl

@[simp] lemma filesOf_nil : filesOf [] = [] := rfl

@[simp] lemma filesOf_cons (s : Stmt) (l : List Stmt) :
    filesOf (s :: l) = s.files ++ filesOf l := rfl

/-- On a statement list without exception handlers, a run with failure
predicate `f` produces exactly the outputs of the prefix before the first
failing statement and reports that statement. -/
lemma runScript_eq_of_no_catch (f : Stmt → Bool) :
    ∀ l : List Stmt, (∀ s ∈ l, s.catches = false) →
      runScript f l =
        ⟨writesOf (l.takeWhile fun s => !f s),
         filesOf (l.takeWhile fun s => !f s),
         (l.find? f).map Stmt.name⟩
  | [], _ => rfl
  | s :: rest, h => by
    have hs : s.catches = false := h s (List.mem_cons_self s rest)
    have hrest : ∀ t ∈ rest, t.catches = false := fun t ht => h t (List.mem_cons_of_mem s ht)
    by_cases hf : f s
    · simp [runScript, hf, hs, List.takeWhile_cons, List.find?_cons_of_pos _ hf]
    · have hf' : f s = false := by simpa using hf
      have hfind : (s :: rest).find? f = rest.find? f :=
        List.find?_cons_of_neg _ (by simp [hf'])
      simp [runScript, hf', List.takeWhile_cons, hfind,
        runScript_eq_of_no_catch f rest hrest]

/-! Claim theorems for the statement-level embedding. -/

/-- Claim C1: the notebook runs the advertised stages in order: brain
masking and noise estimation from the real scan first (`mask_brain`, then
`calc_noise`), then signal synthesis (`generate_signal`, `convolve_hrf`,
`apply_signal`) and noise generation (`generate_noise`), combined as
`brain = signal + noise`, and only afterwards the univariate t-test and
the SVM, which read the synthetic `brain`; stage labels never decrease
along the statement list and every statement reads only variables written
by earlier statements, so each later stage consumes only outputs of
earlier stages. -/
theorem c1_pipeline_order :
    stagesOK notebook = true
    ∧ wellScopedB notebook = true
    ∧ idxOfCallee .fmrisim_mask_brain notebook < idxOfCallee .fmrisim_calc_noise notebook
    ∧ idxOfCallee .fmrisim_calc_noise notebook < idxOfCallee .fmrisim_generate_signal notebook
    ∧ idxOfCallee .fmrisim_generate_signal notebook < idxOfCallee .fmrisim_convolve_hrf notebook
    ∧ idxOfCallee .fmrisim_convolve_hrf notebook < idxOfCallee .fmrisim_apply_signal notebook
    ∧ idxOfCallee .fmrisim_apply_signal notebook < idxOfName "brain_assign" notebook
    ∧ idxOfCallee .fmrisim_generate_noise notebook < idxOfName "brain_assign" notebook
    ∧ idxOfName "brain_assign" notebook < idxOfCallee .scipy_ttest_1samp notebook
    ∧ idxOfName "brain_assign" notebook < idxOfCallee .sklearn_SVC_fit notebook
    ∧ ((notebook.filter fun s => s.name == "trials_A_index" || s.name == "trials_B_index").all
        fun s => s.reads.contains V.brain) = true := by
  decide

/-- Claim C2: each of the six named computational steps (masking, noise
estimation, noise synthesis, HRF convolution, signal injection,
classification) is performed by exactly one statement, that statement is a
call of the corresponding external-library function, the notebook defines
no functions of its own, and no notebook-owned computation statement
produces any of the six steps' outputs. -/
theorem c2_single_call_delegation :
    countCallee .fmrisim_mask_brain notebook = 1
    ∧ countCallee .fmrisim_calc_noise notebook = 1
    ∧ countCallee .fmrisim_generate_noise notebook = 1
    ∧ countCallee .fmrisim_convolve_hrf notebook = 1
    ∧ countCallee .fmrisim_apply_signal notebook = 1
    ∧ countCallee .sklearn_SVC_fit notebook = 1
    ∧ (notebook.all fun s =>
        !(coreCallees.contains s.callee) || (s.kind == Kind.libCall)) = true
    ∧ funcDefCount notebook = 0
    ∧ (notebook.all fun s =>
        !(s.kind == Kind.ownCompute) || (s.writes.all fun v => !(coreOutputs.contains v))) = true := by
  decide

/-- Claim C3, as stated, is false: the notebook's own code is not only
parameter setup, narration, plotting and library calls.  Fourteen
statements - among them the per-voxel `signal_change` for-loop of cell 19
and `brain = signal + noise` of cell 44 - perform numerical computation in
notebook-owned Python (loops, element-wise operator arithmetic, fancy
indexing, list construction). -/
theorem c3_claim_false :
    (notebook.all allowedByC3) = false
    ∧ ((notebook.filter fun s => !allowedByC3 s).map Stmt.name) = glueStmtNames := by
  decide

/-- Claim C3, amended: aside from the delegated library calls, every
notebook statement is narration (imports, prints), parameter setup,
plotting, or one of the fourteen listed glue statements that perform
numerical computation in notebook-owned Python (loops, operator
arithmetic, fancy indexing, list construction - some invoking numpy
helpers such as `randn`/`reshape`, `repmat`/`transpose`, `np.mean` or
`.astype` within their expressions); the notebook defines no functions or
classes. -/
theorem c3_glue_only :
    (notebook.all fun s => allowedByC3 s || glueStmtNames.contains s.name) = true
    ∧ (notebook.all fun s =>
        !(glueStmtNames.contains s.name) || (s.kind == Kind.ownCompute)) = true
    ∧ funcDefCount notebook = 0 := by
  decide

/-- Claim C4: the MDS/SVM analysis is a direct, unmodified use of standard
routines: the one MDS constructor call has `n_components=2` and
`dissimilarity='precomputed'` and is fitted on the distance matrix, which
is computed by `pdist`/`squareform` from the stacked trials; the one
`train_test_split` call has `test_size=0.2` and `random_state=0`; the one
SVC is a `kernel='linear'`, `C=1` classifier fitted on the training split;
the reported accuracy is `clf.score` on the held-out split; and the
notebook implements no classifier or embedding logic of its own (no
function definitions). -/
theorem c4_mds_svm_standard :
    ((notebook.filter fun s => s.callee == some Callee.sklearn_MDS).map Stmt.args)
      = [[("n_components", "2"), ("dissimilarity", "precomputed")]]
    ∧ ((notebook.filter fun s => s.callee == some Callee.sklearn_MDS_fit).map Stmt.reads)
      = [[V.mds, V.distance_matrix]]
    ∧ ((notebook.filter fun s => s.callee == some Callee.scipy_pdist_squareform).map Stmt.reads)
      = [[V.trials_A, V.trials_B]]
    ∧ ((notebook.filter fun s => s.callee == some Callee.sklearn_train_test_split).map Stmt.args)
      = [[("test_size", "0.2"), ("random_state", "0")]]
    ∧ ((notebook.filter fun s => s.callee == some Callee.sklearn_SVC_fit).map Stmt.args)
      = [[("kernel", "linear"), ("C", "1")]]
    ∧ ((notebook.filter fun s => s.callee == some Callee.sklearn_SVC_fit).map Stmt.reads)
      = [[V.X_train, V.y_train]]
    ∧ ((notebook.filter fun s => s.callee == some Callee.sklearn_SVC_score).map Stmt.reads)
      = [[V.clf, V.X_test, V.y_test]]
    ∧ funcDefCount notebook = 0 := by
  decide

/-- Claim C6: the notebook installs no exception handling of its own (no
statement is guarded by `try/except`), so for every failure predicate `f`,
running the script produces exactly the variables and files of the prefix
of statements before the first failing one, and aborts reporting that
statement; nothing scheduled after the failing statement is produced. -/
theorem c6_no_exception_handling :
    (notebook.all fun s => !s.catches) = true
    ∧ ∀ f : Stmt → Bool,
        runScript f notebook =
          ⟨writesOf (notebook.takeWhile fun s => !f s),
           filesOf (notebook.takeWhile fun s => !f s),
           (notebook.find? f).map Stmt.name⟩ := by
  refine ⟨by decide, fun f => runScript_eq_of_no_catch f notebook ?_⟩
  decide

/-- Witness for C6 at the concrete failure predicate that makes the noise
estimation call (`calc_noise`, cell 12) raise. -/
theorem c6_no_exception_handling_witness :
    (notebook.all fun s => !s.catches) = true
    ∧ runScript (fun s => s.name == "noise_dict_calc") notebook =
        ⟨writesOf (notebook.takeWhile fun s => !(s.name == "noise_dict_calc")),
         filesOf (notebook.takeWhile fun s => !(s.name == "noise_dict_calc")),
         (notebook.find? fun s => s.name == "noise_dict_calc").map Stmt.name⟩ := by
  obtain ⟨h1, h2⟩ := c6_no_exception_handling
  exact ⟨h1, h2 _⟩

/-! Value-level embedding: header access and TR normalization.

Cell 8 of the notebook reads `tr = dimsize[3]` from the header zooms and
renormalizes it from milliseconds to seconds when it is larger than 100;
`dim[3]` and `dim[0:3]` are read later (cells 24 and 16).  Header zoom
values are modelled as exact rationals, the Python `IndexError` of a tuple
access past the end as an `Except` failure. -/

/-- Cell 8 renormalization: `if tr > 100: tr /= 1000`. -/
def normalizeTR (t : ℚ) : ℚ := if 100 < t then t / 1000 else t

/-- The value of `tr` after cell 8, given the header zooms; `none` when
`dimsize[3]` is out of bounds. -/
def trFromHeader (zooms : List ℚ) : Option ℚ := (zooms.get? 3).map normalizeTR

/-- Cell 8 as a fallible computation: `tr = dimsize[3]` raises an
`IndexError` when the header has fewer than four zoom values. -/
def headerStage (zooms : List ℚ) : Except String ℚ :=
  match zooms.get? 3 with
  | none => .error "IndexError: tuple index out of range"
  | some t => .ok (normalizeTR t)

/-- All index accesses the pipeline makes into the image header and shape:
`dimsize[3]` (cell 8), `dim[3]` (cell 24), and the slice `dim[0:3]` being
three elements long (cells 16, 35, 38). -/
def accessesInBounds (shape : List Nat) (zooms : List ℚ) : Prop :=
  (zooms.get? 3).isSome = true ∧ (shape.get? 3).isSome = true
    ∧ (shape.take 3).length = 3

lemma get?_isSome_iff {α : Type*} (l : List α) (n : Nat) :
    (l.get? n).isSome = true ↔ n < l.length := by
  constructor
  · intro h
    by_contra hn
    rw [List.get?_eq_getElem?, List.getElem?_eq_none (by omega)] at h
    simp at h
  · intro h
    rw [List.get?_eq_getElem?, List.getElem?_eq_getElem h]
    simp

/-- Claim C5: for a loaded image whose shape and header zooms have the
same number of entries (as nibabel guarantees), the index accesses
`dimsize[3]`, `dim[3]` and the three-element slice `dim[0:3]` are all in
bounds exactly when the image has at least four dimensions; with a 3-D
input, `tr = dimsize[3]` raises an `IndexError`, the run aborts at the
`tr` assignment, no fmrisim output (mask, noise parameters, signal, noise,
brain) is ever produced, and the failing statement precedes the first
simulation call (`mask_brain`). -/
theorem c5_four_dims_required (shape : List Nat) (zooms : List ℚ)
    (hlen : shape.length = zooms.length) :
    (accessesInBounds shape zooms ↔ 4 ≤ shape.length)
    ∧ (shape.length = 3 →
        headerStage zooms = .error "IndexError: tuple index out of range"
        ∧ (runScript (fun s => s.name == "tr_assign") notebook).aborted = some "tr_assign"
        ∧ ((runScript (fun s => s.name == "tr_assign") notebook).written.all
            fun v => !([V.mask, V.template, V.noise_dict, V.signal_volume, V.signal,
                        V.noise, V.brain].contains v)) = true
        ∧ idxOfName "tr_assign" notebook < idxOfCallee .fmrisim_mask_brain notebook) := by
  constructor
  · unfold accessesInBounds
    rw [get?_isSome_iff, get?_isSome_iff, List.length_take]
    omega
  · intro h3
    refine ⟨?_, by decide, by decide, by decide⟩
    have hnone : zooms[3]? = none := List.getElem?_eq_none (by omega)
    simp [headerStage, List.get?_eq_getElem?, hnone]

/-- Witness for C5 at a concrete 3-D image (shape 64 x 64 x 26, zooms
3 x 3 x 4 mm). -/
theorem c5_four_dims_required_witness :
    (accessesInBounds [64, 64, 26] [3, 3, 4] ↔ 4 ≤ ([64, 64, 26] : List Nat).length)
    ∧ headerStage [3, 3, 4] = .error "IndexError: tuple index out of range"
    ∧ (runScript (fun s => s.name == "tr_assign") notebook).aborted = some "tr_assign"
    ∧ ((runScript (fun s => s.name == "tr_assign") notebook).written.all
        fun v => !([V.mask, V.template, V.noise_dict, V.signal_volume, V.signal,
                    V.noise, V.brain].contains v)) = true
    ∧ idxOfName "tr_assign" notebook < idxOfCallee .fmrisim_mask_brain notebook := by
  obtain ⟨h1, h2⟩ := c5_four_dims_required [64, 64, 26] [3, 3, 4] rfl
  exact ⟨h1, h2 rfl⟩

/-- Check that `tr` is written only at its two cell-8 assignments and
every later statement that uses a repetition time reads this `tr`. -/
def trUsageOK (l : List Stmt) : Bool :=
  let i := idxOfName "tr_normalize" l
  l.enum.all fun p =>
    ((!(p.2.reads.contains V.tr)) || (p.1 == i) || decide (i < p.1))
      && ((!(p.2.writes.contains V.tr)) || decide (p.1 ≤ i))

/-- Claim C10: for every loaded header, the repetition time used by all
downstream computation is the fourth zoom value when that value is at most
100, and that value divided by 1000 when it exceeds 100; moreover `tr` is
never reassigned after cell 8 and all later readers of a repetition time
read this variable. -/
theorem c10_tr_normalization (zooms : List ℚ) (t : ℚ)
    (hget : zooms.get? 3 = some t) :
    (t ≤ 100 → trFromHeader zooms = some t)
    ∧ (100 < t → trFromHeader zooms = some (t / 1000))
    ∧ trUsageOK notebook = true := by
  rw [List.get?_eq_getElem?] at hget
  refine ⟨fun hle => ?_, fun hlt => ?_, by decide⟩
  · simp [trFromHeader, List.get?_eq_getElem?, hget, normalizeTR, not_lt.mpr hle]
  · simp [trFromHeader, List.get?_eq_getElem?, hget, normalizeTR, hlt]

/-- Witness for C10 at a header whose fourth zoom is 2000 (milliseconds):
the normalized repetition time is 2000/1000 seconds. -/
theorem c10_tr_normalization_witness :
    trFromHeader [3, 3, 4, 2000] = some (2000 / 1000)
    ∧ trUsageOK notebook = true := by
  obtain ⟨-, h2, h3⟩ := c10_tr_normalization [3, 3, 4, 2000] 2000 rfl
  exact ⟨h2 (by decide), h3⟩

/-! Value-level embedding: event timing (cell 24) and labels (cell 54).

Python floats are modelled as exact rationals and `int()` truncation
toward zero as `pyInt`.  `np.random.shuffle` is modelled by quantifying
over all permutations of the onset list. -/

/-- Python `int()` on a float: truncation toward zero. -/
def pyInt (q : ℚ) : ℤ := if 0 ≤ q then ⌊q⌋ else ⌈q⌉

/-- Parameter `event_duration = 2` (cell 24). -/
def event_duration : ℚ := 2

/-- Parameter `isi = 3` (cell 24). -/
def isi : ℚ := 3

/-- Parameter `burn_in = 3` (cell 24). -/
def burn_in : ℚ := 3

/-- Assignment `total_time = int(dim[3] * tr) + burn_in` (cell 24). -/
def totalTimeOf (dim3 : ℕ) (tr : ℚ) : ℤ := pyInt ((dim3 : ℚ) * tr) + 3

/-- Assignment `events = int((total_time - ((event_duration + isi) * 2)) /
((event_duration + isi) * 2)) * 2` (cell 24). -/
def eventsOf (tt : ℤ) : ℤ :=
  pyInt (((tt : ℚ) - (event_duration + isi) * 2) / ((event_duration + isi) * 2)) * 2

/-- The call `np.linspace(a, b, num)` with default endpoint handling:
`num` evenly spaced values from `a` to `b` inclusive. -/
def linspace (a b : ℚ) : ℕ → List ℚ
  | 0 => []
  | 1 => [a]
  | n + 2 => (List.range (n + 2)).map
      (fun (i : ℕ) => a + (i : ℚ) * ((b - a) / ((n + 1 : ℕ) : ℚ)))

/-- Assignment `onsets_all = np.linspace(burn_in, events * (event_duration + isi),
events)` (cell 24). -/
def onsetsAllOf (ev : ℤ) : List ℚ :=
  linspace burn_in ((ev : ℚ) * (event_duration + isi)) ev.toNat

/-- Truncation `int(events / 2)`, the split point of the shuffled onsets
(cell 24). -/
def halfOf (ev : ℤ) : ℕ := (pyInt ((ev : ℚ) / 2)).toNat

/-- Labels `input_labels = trials_A.shape[1] * [1] + trials_B.shape[1] * [0]`
(cell 54); the trial counts are the lengths of the two onset lists. -/
def labelsOf (nA nB : ℕ) : List ℤ := List.replicate nA 1 ++ List.replicate nB 0

lemma pyInt_nonneg {q : ℚ} (h : -1 < q) : 0 ≤ pyInt q := by
  unfold pyInt
  split
  · exact Int.floor_nonneg.mpr (by assumption)
  · have hc : (-1 : ℤ) < ⌈q⌉ := by
      rw [Int.lt_ceil]
      push_cast
      exact h
    omega

lemma pyInt_intCast (m : ℤ) : pyInt (m : ℚ) = m := by
  unfold pyInt
  split
  · exact Int.floor_intCast m
  · exact Int.ceil_intCast m

lemma linspace_length (a b : ℚ) : ∀ n, (linspace a b n).length = n
  | 0 => rfl
  | 1 => rfl
  | n + 2 => by
    have h : linspace a b (n + 2)
        = (List.range (n + 2)).map
            (fun (i : ℕ) => a + (i : ℚ) * ((b - a) / ((n + 1 : ℕ) : ℚ))) := rfl
    rw [h, List.length_map, List.length_range]

lemma linspace_nodup (a b : ℚ) (n : ℕ) (h : 2 ≤ n → a ≠ b) :
    (linspace a b n).Nodup := by
  match n with
  | 0 => simp [linspace]
  | 1 => simp [linspace]
  | n + 2 =>
    have hab : a ≠ b := h (by omega)
    have hd : (b - a) / ((n + 1 : ℕ) : ℚ) ≠ 0 := by
      apply div_ne_zero (sub_ne_zero.mpr (Ne.symm hab))
      exact Nat.cast_ne_zero.mpr (Nat.succ_ne_zero n)
    have heq : linspace a b (n + 2)
        = (List.range (n + 2)).map
            (fun (i : ℕ) => a + (i : ℚ) * ((b - a) / ((n + 1 : ℕ) : ℚ))) := rfl
    rw [heq]
    refine List.Nodup.map ?_ (List.nodup_range _)
    intro i j hij
    have h1 : (i : ℚ) * ((b - a) / ((n + 1 : ℕ) : ℚ))
        = (j : ℚ) * ((b - a) / ((n + 1 : ℕ) : ℚ)) := add_left_cancel hij
    exact_mod_cast mul_right_cancel₀ hd h1

lemma eventsOf_even (tt : ℤ) : 2 ∣ eventsOf tt :=
  ⟨pyInt (((tt : ℚ) - (event_duration + isi) * 2) / ((event_duration + isi) * 2)),
    mul_comm _ 2⟩

lemma eventsOf_nonneg {tt : ℤ} (h : 3 ≤ tt) : 0 ≤ eventsOf tt := by
  unfold eventsOf
  have h1 : (0:ℤ) ≤ pyInt (((tt : ℚ) - (event_duration + isi) * 2)
      / ((event_duration + isi) * 2)) := by
    apply pyInt_nonneg
    have hc : ((tt : ℚ) - (event_duration + isi) * 2) / ((event_duration + isi) * 2)
        = ((tt : ℚ) - 10) / 10 := by norm_num [event_duration, isi]
    rw [hc]
    have h3 : (3 : ℚ) ≤ (tt : ℚ) := by exact_mod_cast h
    linarith
  omega

lemma totalTimeOf_ge {dim3 : ℕ} {tr : ℚ} (htr : 0 ≤ tr) : 3 ≤ totalTimeOf dim3 tr := by
  unfold totalTimeOf
  have h1 : 0 ≤ pyInt ((dim3 : ℚ) * tr) := by
    apply pyInt_nonneg
    have : (0 : ℚ) ≤ (dim3 : ℚ) * tr := mul_nonneg (Nat.cast_nonneg dim3) htr
    linarith
  omega

lemma halfOf_spec {ev : ℤ} (h2 : 2 ∣ ev) (h0 : 0 ≤ ev) : (halfOf ev : ℤ) * 2 = ev := by
  obtain ⟨m, rfl⟩ := h2
  have hm : 0 ≤ m := by omega
  have hcast : ((2 * m : ℤ) : ℚ) / 2 = ((m : ℤ) : ℚ) := by push_cast; ring
  unfold halfOf
  rw [hcast, pyInt_intCast]
  omega

/-- Claim C9: trial counts are balanced between conditions.  `events` is
even and nonnegative by construction; for any shuffled order of the onset
list, `onsets_A` (the first `int(events/2)` entries) and `onsets_B` (the
rest) each have exactly `events/2` onsets, together they partition the
shuffled list, they share no onset value, and the SVM label vector built
from the two trial counts has equally many ones and zeros. -/
theorem c9_balanced_design (dim3 : ℕ) (tr : ℚ) (shuffled : List ℚ)
    (htr : 0 ≤ tr)
    (hperm : shuffled.Perm (onsetsAllOf (eventsOf (totalTimeOf dim3 tr)))) :
    2 ∣ eventsOf (totalTimeOf dim3 tr)
    ∧ 0 ≤ eventsOf (totalTimeOf dim3 tr)
    ∧ (halfOf (eventsOf (totalTimeOf dim3 tr)) : ℤ) * 2 = eventsOf (totalTimeOf dim3 tr)
    ∧ (shuffled.take (halfOf (eventsOf (totalTimeOf dim3 tr)))).length
        = halfOf (eventsOf (totalTimeOf dim3 tr))
    ∧ (shuffled.drop (halfOf (eventsOf (totalTimeOf dim3 tr)))).length
        = halfOf (eventsOf (totalTimeOf dim3 tr))
    ∧ shuffled.take (halfOf (eventsOf (totalTimeOf dim3 tr)))
        ++ shuffled.drop (halfOf (eventsOf (totalTimeOf dim3 tr))) = shuffled
    ∧ List.Disjoint (shuffled.take (halfOf (eventsOf (totalTimeOf dim3 tr))))
        (shuffled.drop (halfOf (eventsOf (totalTimeOf dim3 tr))))
    ∧ (labelsOf (shuffled.take (halfOf (eventsOf (totalTimeOf dim3 tr)))).length
          (shuffled.drop (halfOf (eventsOf (totalTimeOf dim3 tr)))).length).count 1
        = (labelsOf (shuffled.take (halfOf (eventsOf (totalTimeOf dim3 tr)))).length
            (shuffled.drop (halfOf (eventsOf (totalTimeOf dim3 tr)))).length).count 0 := by
  set ev := eventsOf (totalTimeOf dim3 tr) with hev
  set k := halfOf ev with hk
  have hev2 : 2 ∣ ev := eventsOf_even _
  have hev0 : 0 ≤ ev := eventsOf_nonneg (totalTimeOf_ge htr)
  have hhalf : (k : ℤ) * 2 = ev := halfOf_spec hev2 hev0
  have hlenall : (onsetsAllOf ev).length = ev.toNat := linspace_length _ _ _
  have hlen : shuffled.length = ev.toNat := hperm.length_eq.trans hlenall
  have htake : (shuffled.take k).length = k := by
    rw [List.length_take]
    omega
  have hdrop : (shuffled.drop k).length = k := by
    rw [List.length_drop]
    omega
  have happ : shuffled.take k ++ shuffled.drop k = shuffled := List.take_append_drop k shuffled
  have hnodall : (onsetsAllOf ev).Nodup := by
    apply linspace_nodup
    intro hn2
    have hev2' : (2 : ℤ) ≤ ev := by omega
    have hevq : (2 : ℚ) ≤ (ev : ℚ) := by exact_mod_cast hev2'
    have : burn_in < (ev : ℚ) * (event_duration + isi) := by
      norm_num [burn_in, event_duration, isi]
      nlinarith
    exact ne_of_lt this
  have hnod : shuffled.Nodup := hperm.nodup_iff.mpr hnodall
  have hdisj : List.Disjoint (shuffled.take k) (shuffled.drop k) := by
    rw [← happ] at hnod
    exact (List.nodup_append.mp hnod).2.2
  refine ⟨hev2, hev0, hhalf, htake, hdrop, happ, hdisj, ?_⟩
  rw [htake, hdrop]
  simp [labelsOf, List.count_append, List.count_replicate]

/-- Witness for C9 at `dim[3] = 4`, `tr = 5`, with the identity shuffle:
`total_time = 23`, `events = 2`, and one onset goes to each condition. -/
theorem c9_balanced_design_witness :
    2 ∣ eventsOf (totalTimeOf 4 5)
    ∧ 0 ≤ eventsOf (totalTimeOf 4 5)
    ∧ (halfOf (eventsOf (totalTimeOf 4 5)) : ℤ) * 2 = eventsOf (totalTimeOf 4 5)
    ∧ ((onsetsAllOf (eventsOf (totalTimeOf 4 5))).take
        (halfOf (eventsOf (totalTimeOf 4 5)))).length = halfOf (eventsOf (totalTimeOf 4 5))
    ∧ ((onsetsAllOf (eventsOf (totalTimeOf 4 5))).drop
        (halfOf (eventsOf (totalTimeOf 4 5)))).length = halfOf (eventsOf (totalTimeOf 4 5))
    ∧ (onsetsAllOf (eventsOf (totalTimeOf 4 5))).take (halfOf (eventsOf (totalTimeOf 4 5)))
        ++ (onsetsAllOf (eventsOf (totalTimeOf 4 5))).drop (halfOf (eventsOf (totalTimeOf 4 5)))
        = onsetsAllOf (eventsOf (totalTimeOf 4 5))
    ∧ List.Disjoint
        ((onsetsAllOf (eventsOf (totalTimeOf 4 5))).take (halfOf (eventsOf (totalTimeOf 4 5))))
        ((onsetsAllOf (eventsOf (totalTimeOf 4 5))).drop (halfOf (eventsOf (totalTimeOf 4 5))))
    ∧ (labelsOf
          ((onsetsAllOf (eventsOf (totalTimeOf 4 5))).take
            (halfOf (eventsOf (totalTimeOf 4 5)))).length
          ((onsetsAllOf (eventsOf (totalTimeOf 4 5))).drop
            (halfOf (eventsOf (totalTimeOf 4 5)))).length).count 1
        = (labelsOf
            ((onsetsAllOf (eventsOf (totalTimeOf 4 5))).take
              (halfOf (eventsOf (totalTimeOf 4 5)))).length
            ((onsetsAllOf (eventsOf (totalTimeOf 4 5))).drop
              (halfOf (eventsOf (totalTimeOf 4 5)))).length).count 0 :=
  c9_balanced_design 4 5 (onsetsAllOf (eventsOf (totalTimeOf 4 5))) (by decide)
    (List.Perm.refl _)

/-! Value-level embedding: the per-voxel effect-size loop (cell 19).

```
signal_idxs = np.where(signal_volume == 1)
signal_change = np.zeros((int(signal_volume.sum()), 1))
for idx_counter in list(range(0, int(signal_volume.sum()))):
    x = signal_idxs[0][idx_counter]
    y = signal_idxs[1][idx_counter]
    z = signal_idxs[2][idx_counter]
    signal_change[idx_counter] = effect_size * temporal_sd[x, y, z]
```

A volume is a nested list in C (row-major) order; `temporal_sd` is a
total map on coordinates.  Reading `signal_idxs[.][idx_counter]` past the
end of the `np.where` result is an `IndexError`, modelled by `none`. -/

/-- A 3-D volume: x-planes of y-rows of z-values, in C order. -/
abbrev Volume := List (List (List ℚ))

def volRowSum (r : List ℚ) : ℚ := r.foldr (· + ·) 0

def volPlaneSum (p : List (List ℚ)) : ℚ := p.foldr (fun r acc => volRowSum r + acc) 0

/-- Total `signal_volume.sum()`. -/
def volSum (v : Volume) : ℚ := v.foldr (fun p acc => volPlaneSum p + acc) 0

def whereRow (x y z : ℕ) : List ℚ → List (ℕ × ℕ × ℕ)
  | [] => []
  | a :: t => if a = 1 then (x, y, z) :: whereRow x y (z + 1) t else whereRow x y (z + 1) t

def wherePlane (x y : ℕ) : List (List ℚ) → List (ℕ × ℕ × ℕ)
  | [] => []
  | r :: t => whereRow x y 0 r ++ wherePlane x (y + 1) t

def whereVol (x : ℕ) : List (List (List ℚ)) → List (ℕ × ℕ × ℕ)
  | [] => []
  | p :: t => wherePlane x 0 p ++ whereVol (x + 1) t

/-- Gather `np.where(signal_volume == 1)`: the coordinates of value-1 voxels
in C order. -/
def whereEq1 (v : Volume) : List (ℕ × ℕ × ℕ) := whereVol 0 v

/-- Every voxel value is 0 or 1 (as `generate_signal` with
`signal_magnitude=[1]` produces). -/
def isBinary (v : Volume) : Bool :=
  v.all fun p => p.all fun r => r.all fun a => a == 0 || a == 1

/-- The `for idx_counter in range(0, n)` loop: at step `i` it reads
`signal_idxs[i]` (raising `IndexError` past the end, hence `none`) and
overwrites slot `i` of the array. -/
def runLoop (f : ℕ × ℕ × ℕ → ℚ) (idxs : List (ℕ × ℕ × ℕ)) :
    ℕ → ℕ → List ℚ → Option (List ℚ)
  | 0, _, arr => some arr
  | fuel + 1, i, arr =>
    match idxs[i]? with
    | none => none
    | some c => runLoop f idxs fuel (i + 1) (arr.set i (f c))

/-- Cell 19 in full: `n = int(signal_volume.sum())` (a negative `n` makes
`np.zeros` raise, hence `none`), a zero array of length `n`, and the loop
over `np.where(signal_volume == 1)`. -/
def signalChangeLoop (es : ℚ) (v : Volume) (tsd : ℕ → ℕ → ℕ → ℚ) : Option (List ℚ) :=
  if pyInt (volSum v) < 0 then none
  else runLoop (fun c => es * tsd c.1 c.2.1 c.2.2) (whereEq1 v)
    (pyInt (volSum v)).toNat 0 (List.replicate (pyInt (volSum v)).toNat 0)

@[simp] lemma volRowSum_nil : volRowSum [] = 0 := rfl

@[simp] lemma volRowSum_cons (a : ℚ) (t : List ℚ) :
    volRowSum (a :: t) = a + volRowSum t := rfl

@[simp] lemma volPlaneSum_nil : volPlaneSum [] = 0 := rfl

@[simp] lemma volPlaneSum_cons (r : List ℚ) (t : List (List ℚ)) :
    volPlaneSum (r :: t) = volRowSum r + volPlaneSum t := rfl

@[simp] lemma volSum_nil : volSum [] = 0 := rfl

@[simp] lemma volSum_cons (p : List (List ℚ)) (t : Volume) :
    volSum (p :: t) = volPlaneSum p + volSum t := rfl

lemma pyInt_natCast (n : ℕ) : pyInt (n : ℚ) = n := by
  have h := pyInt_intCast (n : ℤ)
  rw [show (((n : ℤ) : ℚ)) = ((n : ℕ) : ℚ) by push_cast; ring] at h
  exact h

lemma volRowSum_binary : ∀ (r : List ℚ), (∀ a ∈ r, a = 0 ∨ a = 1) →
    ∀ x y z, volRowSum r = ((whereRow x y z r).length : ℚ)
  | [], _, x, y, z => by simp [whereRow]
  | a :: t, h, x, y, z => by
    have ht := volRowSum_binary t (fun b hb => h b (List.mem_cons_of_mem a hb)) x y (z + 1)
    rcases h a (List.mem_cons_self a t) with h0 | h1
    · subst h0
      rw [whereRow]
      simp [ht]
    · subst h1
      rw [whereRow]
      simp [ht]
      ring

lemma volPlaneSum_binary : ∀ (p : List (List ℚ)),
    (∀ r ∈ p, ∀ a ∈ r, a = 0 ∨ a = 1) →
    ∀ x y, volPlaneSum p = ((wherePlane x y p).length : ℚ)
  | [], _, x, y => by simp [wherePlane]
  | r :: t, h, x, y => by
    have hr := volRowSum_binary r (h r (List.mem_cons_self r t)) x y 0
    have ht := volPlaneSum_binary t (fun s hs => h s (List.mem_cons_of_mem r hs)) x (y + 1)
    rw [wherePlane]
    simp [hr, ht]

lemma volSum_binary_aux : ∀ (v : Volume),
    (∀ p ∈ v, ∀ r ∈ p, ∀ a ∈ r, a = 0 ∨ a = 1) →
    ∀ x, volSum v = ((whereVol x v).length : ℚ)
  | [], _, x => by simp [whereVol]
  | p :: t, h, x => by
    have hp := volPlaneSum_binary p (h p (List.mem_cons_self p t)) x 0
    have ht := volSum_binary_aux t (fun q hq => h q (List.mem_cons_of_mem p hq)) (x + 1)
    rw [whereVol]
    simp [hp, ht]

lemma volSum_binary (v : Volume) (h : isBinary v = true) :
    volSum v = ((whereEq1 v).length : ℚ) := by
  apply volSum_binary_aux
  intro p hp r hr a ha
  simp only [isBinary, List.all_eq_true] at h
  have := h p hp r hr a ha
  rcases Bool.or_eq_true_iff.mp this with h0 | h1
  · exact Or.inl (by exact_mod_cast beq_iff_eq.mp h0)
  · exact Or.inr (by exact_mod_cast beq_iff_eq.mp h1)

lemma take_set_succ {α : Type*} : ∀ (l : List α) (i : ℕ) (a : α), i < l.length →
    (l.set i a).take (i + 1) = l.take i ++ [a]
  | [], i, a, h => by simp at h
  | b :: t, 0, a, _ => by simp
  | b :: t, i + 1, a, h => by
    have h' : i < t.length := by simpa using h
    show b :: (t.set i a).take (i + 1) = (b :: t.take i) ++ [a]
    rw [take_set_succ t i a h']
    rfl

lemma runLoop_spec (f : ℕ × ℕ × ℕ → ℚ) (idxs : List (ℕ × ℕ × ℕ)) :
    ∀ (fuel i : ℕ) (arr : List ℚ), i + fuel = idxs.length → arr.length = idxs.length →
      runLoop f idxs fuel i arr = some (arr.take i ++ (idxs.drop i).map f)
  | 0, i, arr, hfi, hlen => by
    have h1 : arr.take i = arr := by
      rw [show i = arr.length by omega]
      simp
    have h2 : idxs.drop i = [] := List.drop_eq_nil_of_le (by omega)
    simp [runLoop, h1, h2]
  | fuel + 1, i, arr, hfi, hlen => by
    have hi : i < idxs.length := by omega
    have hget : idxs[i]? = some idxs[i] := List.getElem?_eq_getElem hi
    have hrec := runLoop_spec f idxs fuel (i + 1) (arr.set i (f idxs[i]))
      (by omega) (by simpa using hlen)
    rw [runLoop, hget]
    show runLoop f idxs fuel (i + 1) (arr.set i (f idxs[i]))
        = some (arr.take i ++ (idxs.drop i).map f)
    rw [hrec, take_set_succ arr i _ (by omega), List.drop_eq_getElem_cons hi]
    simp
    have hmap : i < (List.map f idxs).length := by simpa using hi
    rw [List.drop_eq_getElem_cons hmap, List.getElem_map]

/-- Claim C8, amended: for every 0/1-valued `signal_volume` (which is
what `generate_signal` with `signal_magnitude=[1]` produces) and every
`temporal_sd` map, the cell-19 loop terminates without an index error and
computes exactly the gather `effect_size * temporal_sd[signal_idxs]`:
entry `i` of the result is `effect_size` times `temporal_sd` at the
coordinates of the `i`-th value-1 voxel in `np.where` order. -/
theorem c8_loop_gather_equiv (es : ℚ) (v : Volume) (tsd : ℕ → ℕ → ℕ → ℚ)
    (h : isBinary v = true) :
    signalChangeLoop es v tsd
      = some ((whereEq1 v).map fun c => es * tsd c.1 c.2.1 c.2.2) := by
  have hsum : volSum v = ((whereEq1 v).length : ℚ) := volSum_binary v h
  have hpy : pyInt (volSum v) = ((whereEq1 v).length : ℤ) := by
    rw [hsum]
    exact pyInt_natCast _
  unfold signalChangeLoop
  rw [hpy]
  have hneg : ¬ ((((whereEq1 v).length : ℤ)) < 0) := by omega
  rw [if_neg hneg, Int.toNat_natCast]
  have := runLoop_spec (fun c => es * tsd c.1 c.2.1 c.2.2) (whereEq1 v)
    ((whereEq1 v).length) 0 (List.replicate (whereEq1 v).length 0)
    (by omega) (by simp)
  rw [this]
  simp

/-- Witness for the amended C8 at a concrete 1 x 2 x 2 binary volume and
a coordinate-coding `temporal_sd` map. -/
theorem c8_loop_gather_equiv_witness :
    isBinary [[[1, 0], [0, 1]]] = true
    ∧ signalChangeLoop 2 [[[1, 0], [0, 1]]] (fun x y z => (x : ℚ) + 10 * y + 100 * z)
        = some ((whereEq1 [[[1, 0], [0, 1]]]).map
            fun c => 2 * (fun x y z => (x : ℚ) + 10 * y + 100 * z) c.1 c.2.1 c.2.2) :=
  ⟨by decide, c8_loop_gather_equiv 2 _ _ (by decide)⟩

/-- Claim C8, as stated, is false: it asserts the gather equality for
*every* `signal_volume`.  For the volume with a single voxel of value 2
(nonzero but not equal to 1), `int(signal_volume.sum())` is 2 while
`np.where(signal_volume == 1)` is empty, so the loop raises an
`IndexError` at its first iteration instead of computing the gather. -/
theorem c8_loop_claim_false :
    ¬ (signalChangeLoop 1 [[[2]]] (fun _ _ _ => 1)
        = some ((whereEq1 [[[2]]]).map fun c => 1 * (fun _ _ _ => (1 : ℚ)) c.1 c.2.1 c.2.2)) := by
  have hw : whereEq1 [[[(2 : ℚ)]]] = [] := by
    norm_num [whereEq1, whereVol, wherePlane, whereRow]
  have hsum : volSum [[[(2 : ℚ)]]] = 2 := by norm_num
  have hpy : pyInt (volSum [[[(2 : ℚ)]]]) = 2 := by
    rw [hsum, show ((2 : ℚ)) = ((2 : ℕ) : ℚ) by norm_num]
    exact pyInt_natCast 2
  unfold signalChangeLoop
  rw [hpy, hw]
  simp [runLoop]

/-- Claim C7: the only persistent outputs are the three files written by
the library export calls (`epoch_file.npy` via `export_epoch_file`,
`Condition_A.txt` and `Condition_B.txt` via `export_3_column`); every
statement that writes a file is one of those library calls, and the input
scan file is never written. -/
theorem c7_only_three_export_files :
    filesOf notebook = [FileOut.epochFile, FileOut.condA, FileOut.condB]
    ∧ (notebook.all fun s =>
        s.files == [] || (s.callee == some Callee.fmrisim_export_epoch_file
          || s.callee == some Callee.fmrisim_export_3_column)) = true
    ∧ ((filesOf notebook).contains FileOut.inputScan) = false := by
  decide
